import Mathlib

/-!
Shallow embedding of the DHT_Logger telemetry core
(`src/web/src/mqtt.py`, `src/web/src/models.py`, `src/web/src/main.py`).

The ingestion pipeline (`MQTTClient._handle_message`), the persistence
helper (`insert_sensor_data_from_mqtt`), the SSE broadcaster
(`broadcast_new_log`) and the range-query downsampling endpoint
(`get_device_chart_by_range`) are translated into pure Lean functions.
Machine-level concerns are modelled as follows:

* JSON values decoded by `json.loads` are an inductive `J`; a JSON object
  is an association list (last binding wins, as in a Python dict built by
  the json parser).
* The MySQL table `sensor_data` is a list of `Reading`s plus the
  AUTO_INCREMENT counter; `ok = false` models an insertion-time database
  error (the `except` branch of `insert_sensor_data_from_mqtt`).
* `datetime.fromisoformat` is modelled for the forms it is fed here:
  `YYYY-MM-DD`, optionally followed by a space separator and `HH`,
  `HH:MM` or `HH:MM:SS` (fractional seconds and UTC offsets are not
  modelled; the space separator is the one produced by the pipeline's
  normalisation).  Calendar validity (month/day ranges, leap years) is
  checked as CPython does.
* SQL `ORDER BY timestamp ASC` does not determine the relative order of
  rows with equal timestamps, so query results that depend on the order
  are parametrised by an ordering `ord` constrained by `validOrder`
  (a permutation of the selected rows that is nondecreasing in the
  timestamp); likewise `ORDER BY timestamp DESC LIMIT 1` is any row with
  maximal timestamp (`validCurrent`).
* `asyncio` scheduling, the insertion timeout and broker I/O are outside
  the embedding; acknowledgment publication is modelled as the list of
  acknowledgments produced while handling one message, and the SSE queues
  as lists of events.
-/

set_option maxRecDepth 4000

namespace DHT

/-- JSON values as produced by Python `json.loads` (ints and floats kept
apart, as Python does). -/
inductive J where
  | jnull
  | jbool (b : Bool)
  | jint (n : Int)
  | jfloat (q : ℚ)
  | jstr (s : String)
  | jarr (elems : List J)
  | jobj (fields : List (String × J))

/-- Python `type(x).__name__` for decoded JSON values. -/
def pyTypeName : J → String
  | .jnull => "NoneType"
  | .jbool _ => "bool"
  | .jint _ => "int"
  | .jfloat _ => "float"
  | .jstr _ => "str"
  | .jarr _ => "list"
  | .jobj _ => "dict"

/-- Python `str(x)` on decoded JSON values.  The cases the pipeline can
reach with a non-string argument carry ints/floats; container and float
renderings are abbreviated (no claim inspects their text). -/
def pyStr : J → String
  | .jstr s => s
  | .jint n => toString n
  | .jbool b => if b then "True" else "False"
  | .jnull => "None"
  | .jfloat q => toString q
  | .jarr _ => "list"
  | .jobj _ => "dict"

/-- Whitespace stripped by Python `str.strip` (ASCII subset). -/
def pyWs (c : Char) : Bool :=
  c == ' ' || c == Char.ofNat 9 || c == Char.ofNat 10 || c == Char.ofNat 13 ||
  c == Char.ofNat 11 || c == Char.ofNat 12

/-- `str.strip()` on the character list. -/
def pyStripChars (l : List Char) : List Char :=
  ((l.dropWhile pyWs).reverse.dropWhile pyWs).reverse

/-- One step of `timestamp.replace("T", " ").replace("Z", "")`: every `T`
becomes a space and every `Z` is removed. -/
def cleanChar (c : Char) (acc : List Char) : List Char :=
  if c == 'T' then ' ' :: acc else if c == 'Z' then acc else c :: acc

/-- `timestamp.replace("T", " ").replace("Z", "").strip()` — the timestamp
normalisation used by `MQTTClient._handle_message` and
`insert_sensor_data_from_mqtt`. -/
def normTs (ts : String) : String :=
  ⟨pyStripChars (ts.data.foldr cleanChar [])⟩

/-- Numeric value of a digit list. -/
def digitsVal (l : List Char) : Nat :=
  l.foldl (fun a c => a * 10 + (c.toNat - 48)) 0

/-- Unsigned part of Python `float(string)`: digits with an optional
decimal point (exponents and inf/nan are not modelled; no claim feeds
them in). -/
def pyFloatCore (l : List Char) : Option ℚ :=
  let ip := l.takeWhile Char.isDigit
  let rest := l.dropWhile Char.isDigit
  match rest with
  | [] => if ip.isEmpty then none else some (digitsVal ip)
  | '.' :: frac =>
    if frac.all Char.isDigit then
      if ip.isEmpty && frac.isEmpty then none
      else some ((digitsVal ip : ℚ) + (digitsVal frac : ℚ) / (10 ^ frac.length))
    else none
  | _ => none

/-- Python `float(string)`: strip whitespace, optional sign, number. -/
def pyFloatOfString (s : String) : Option ℚ :=
  match pyStripChars s.data with
  | '+' :: rest => pyFloatCore rest
  | '-' :: rest => (pyFloatCore rest).map (fun q => -q)
  | rest => pyFloatCore rest

/-- Python `float(x)` on a decoded JSON value; `none` models the
`ValueError`/`TypeError` the coercion raises. -/
def pyFloat? : J → Option ℚ
  | .jint n => some (n : ℚ)
  | .jfloat q => some q
  | .jbool b => some (if b then 1 else 0)
  | .jstr s => pyFloatOfString s
  | _ => none

/-- A calendar date-time at second precision (the value a MySQL
`DATETIME` column stores and `datetime.fromisoformat` yields). -/
structure DT where
  year : Nat
  month : Nat
  day : Nat
  hour : Nat
  minute : Nat
  second : Nat
deriving DecidableEq

def isLeap (y : Nat) : Bool :=
  (y % 4 == 0 && y % 100 != 0) || (y % 400 == 0)

def daysInMonth (y m : Nat) : Nat :=
  if m == 2 then (if isLeap y then 29 else 28)
  else if m == 4 || m == 6 || m == 9 || m == 11 then 30
  else 31

/-- Two decimal digits. -/
def twoDigits (a b : Char) : Option Nat :=
  if a.isDigit && b.isDigit then some ((a.toNat - 48) * 10 + (b.toNat - 48)) else none

/-- Four decimal digits. -/
def fourDigits (a b c d : Char) : Option Nat :=
  if a.isDigit && b.isDigit && c.isDigit && d.isDigit then
    some (((a.toNat - 48) * 10 + (b.toNat - 48)) * 100 + (c.toNat - 48) * 10 + (d.toNat - 48))
  else none

/-- The time-of-day part accepted by `datetime.fromisoformat`: empty,
`HH`, `HH:MM` or `HH:MM:SS`, with range checks. -/
def timePart : List Char → Option (Nat × Nat × Nat)
  | [] => some (0, 0, 0)
  | [h1, h2] =>
    (twoDigits h1 h2).bind fun hh => if hh ≤ 23 then some (hh, 0, 0) else none
  | [h1, h2, c1, m1, m2] =>
    if c1 == ':' then
      (twoDigits h1 h2).bind fun hh =>
      (twoDigits m1 m2).bind fun mm =>
      if hh ≤ 23 && mm ≤ 59 then some (hh, mm, 0) else none
    else none
  | [h1, h2, c1, m1, m2, c2, s1, s2] =>
    if c1 == ':' && c2 == ':' then
      (twoDigits h1 h2).bind fun hh =>
      (twoDigits m1 m2).bind fun mm =>
      (twoDigits s1 s2).bind fun ss =>
      if hh ≤ 23 && mm ≤ 59 && ss ≤ 59 then some (hh, mm, ss) else none
    else none
  | _ => none

/-- `datetime.fromisoformat` as fed by this code base: `YYYY-MM-DD`
optionally followed by a space separator and a time of day, with CPython's
calendar range checks (year ≥ 1, month 1–12, day within the month). -/
def fromisoformat? (s : String) : Option DT :=
  match s.data with
  | y1 :: y2 :: y3 :: y4 :: c1 :: m1 :: m2 :: c2 :: d1 :: d2 :: rest =>
    if c1 == '-' && c2 == '-' then
      (fourDigits y1 y2 y3 y4).bind fun y =>
      (twoDigits m1 m2).bind fun mo =>
      (twoDigits d1 d2).bind fun dd =>
      if 1 ≤ y && 1 ≤ mo && mo ≤ 12 && 1 ≤ dd && dd ≤ daysInMonth y mo then
        match rest with
        | [] => some ⟨y, mo, dd, 0, 0, 0⟩
        | sep :: t =>
          if sep == ' ' then
            (timePart t).map fun p => ⟨y, mo, dd, p.1, p.2.1, p.2.2⟩
          else none
      else none
    else none
  | _ => none

/-- Days since 1970-01-01 of a civil date (standard days-from-civil
computation; all inputs here have year ≥ 1). -/
def daysFromCivil (y m d : Int) : Int :=
  let y2 : Int := if m ≤ 2 then y - 1 else y
  let era : Int := y2 / 400
  let yoe : Int := y2 - era * 400
  let mp : Int := (m + 9) % 12
  let doy : Int := (153 * mp + 2) / 5 + d - 1
  let doe : Int := yoe * 365 + yoe / 4 - yoe / 100 + doy
  era * 146097 + doe - 719468

/-- Seconds since the epoch of a `DT` (UTC reading; Python's
`datetime.timestamp()` applies the local timezone, which no claim
depends on). -/
def dtEpoch (t : DT) : Int :=
  daysFromCivil (t.year : Int) (t.month : Int) (t.day : Int) * 86400 +
    (t.hour : Int) * 3600 + (t.minute : Int) * 60 + (t.second : Int)

/-- Zero-padded decimal rendering. -/
def pad2 (n : Nat) : String := if n < 10 then "0" ++ toString n else toString n

def pad4 (n : Nat) : String :=
  if n < 10 then "000" ++ toString n
  else if n < 100 then "00" ++ toString n
  else if n < 1000 then "0" ++ toString n
  else toString n

/-- `DATE_FORMAT(timestamp, "%Y-%m-%d %H:%i:%s")`. -/
def dtRender (t : DT) : String :=
  pad4 t.year ++ "-" ++ pad2 t.month ++ "-" ++ pad2 t.day ++ " " ++
    pad2 t.hour ++ ":" ++ pad2 t.minute ++ ":" ++ pad2 t.second

/-- One persisted row of the `sensor_data` table. -/
structure Reading where
  log_id : Nat
  device_id : String
  mac_address : String
  temperature : ℚ
  humidity : ℚ
  timestamp : DT
deriving DecidableEq

/-- The `sensor_data` table: its rows, the AUTO_INCREMENT counter (starts
at 1 on a fresh table) and an availability flag (`ok = false` makes the
insert raise, i.e. return `None`). -/
structure DB where
  rows : List Reading
  nextId : Nat
  ok : Bool
deriving DecidableEq

/-- `insert_sensor_data_from_mqtt` (`src/web/src/models.py`): normalise
the timestamp string, validate it with `datetime.fromisoformat`
(returning `None` on `ValueError`), then insert and return
`cursor.lastrowid`; any database exception also yields `None`. -/
def insertSensorData (db : DB) (device_id mac_address : String)
    (temperature humidity : ℚ) (timestamp : String) : DB × Option Nat :=
  match fromisoformat? (normTs timestamp) with
  | none => (db, none)
  | some dt =>
    if db.ok then
      (⟨db.rows ++ [⟨db.nextId, device_id, mac_address, temperature, humidity, dt⟩],
        db.nextId + 1, db.ok⟩, some db.nextId)
    else (db, none)

/-- The acknowledgment payload built by `MQTTClient._send_ack`:
`log_id`/`message` are present iff the ack is a success with a truthy
`log_id`, `error` iff a failure reason was given.  Identity fields hold
the raw JSON values that were echoed (`none` renders as JSON `null`). -/
structure Ack where
  success : Bool
  device_id : Option J
  mac_address : Option J
  timestamp : Option J
  log_id : Option Nat
  message : Option String
  error : Option String

/-- One event delivered to an SSE client queue (the dict passed to
`broadcast_callback` in `_handle_message`). -/
structure Event where
  log_id : Nat
  device_id : String
  mac_address : String
  temperature : ℚ
  humidity : ℚ
  timestamp : String
  datetime : String
  unix_timestamp : Int

/-- The broadcast dict built on the success path of `_handle_message`. -/
def mkEvent (lid : Nat) (did mac : String) (t h : ℚ) (ts : String) : Event :=
  ⟨lid, did, mac, t, h, ts, normTs ts, ((fromisoformat? (normTs ts)).map dtEpoch).getD 0⟩

/-- `broadcast_new_log` (`src/web/src/main.py`): put the event on every
currently registered SSE client queue. -/
def broadcastNewLog (ev : Event) (queues : List (List Event)) : List (List Event) :=
  queues.map (fun q => q ++ [ev])

/-- Python dict lookup on a decoded JSON object (`data.get(k)` /
`data[k]`); for duplicate keys the last binding wins, as in `json.loads`. -/
def getKey (data : List (String × J)) (k : String) : Option J :=
  ((data.reverse).find? (fun p => p.1 == k)).map (fun p => p.2)

/-- Python `k in data`. -/
def hasKey (data : List (String × J)) (k : String) : Bool :=
  (getKey data k).isSome

/-- `data[k]` on a key known to be present. -/
def getD (data : List (String × J)) (k : String) : J :=
  (getKey data k).getD .jnull

/-- The `required_fields` list of `_handle_message`. -/
def requiredFields : List String :=
  ["device_id", "mac_address", "temperature", "humidity", "timestamp"]

/-- `[field for field in required_fields if field not in data]`. -/
def missingOf (data : List (String × J)) : List String :=
  requiredFields.filter (fun f => !hasKey data f)

/-- A single-quote character, built numerically. -/
def sq : String := ⟨[Char.ofNat 39]⟩

/-- Python `repr` of a string (single-quoted; the field names involved
contain no quotes or escapes). -/
def pyQuote (s : String) : String := sq ++ s ++ sq

/-- Items of the Python `repr` of a list of strings. -/
def pyReprItems : List String → String
  | [] => ""
  | [x] => pyQuote x
  | x :: y :: rest => pyQuote x ++ ", " ++ pyReprItems (y :: rest)

/-- `f"Missing fields: {missing_fields}"`. -/
def missingMsg (l : List String) : String :=
  "Missing fields: [" ++ pyReprItems l ++ "]"

/-- The timestamp type-error acknowledgment text. -/
def tsTypeErrMsg (tn : String) : String :=
  "Timestamp must be ISO 8601 string (e.g., " ++ pyQuote "2025-01-11T12:30:45" ++
    "), got " ++ tn

/-- The timestamp format-error acknowledgment text. -/
def tsFmtErrMsg (ts : String) : String :=
  "Invalid datetime format: " ++ pyQuote ts ++ ". Use ISO 8601 (e.g., " ++
    pyQuote "2025-01-11T12:30:45" ++ ")"

/-- Result of handling one inbound MQTT message: the database afterwards,
the acknowledgments published, and the SSE queues afterwards. -/
structure HandleResult where
  db : DB
  acks : List Ack
  queues : List (List Event)

/-- Whether a decoded JSON value is a string (`isinstance(timestamp, str)`). -/
def isJStr : J → Bool
  | .jstr _ => true
  | _ => false

/-- The persist/acknowledge/broadcast tail of `_handle_message` (reached
once the fields, types and timestamp format have been validated): insert
with `insert_sensor_data_from_mqtt`; a truthy `log_id` yields a success
acknowledgment and a broadcast to every SSE queue, a falsy one the
`Database insertion failed` acknowledgment. -/
def persistStage (db : DB) (queues : List (List Event)) (device_id mac : String)
    (t h : ℚ) (ts : String) : HandleResult :=
  let res := insertSensorData db device_id mac t h ts
  match res.2 with
  | some lid =>
    if lid ≠ 0 then
      ⟨res.1, [⟨true, some (.jstr device_id), some (.jstr mac), some (.jstr ts),
                some lid, some "Data logged successfully", none⟩],
        broadcastNewLog (mkEvent lid device_id mac t h ts) queues⟩
    else
      ⟨res.1, [⟨false, some (.jstr device_id), some (.jstr mac), some (.jstr ts),
                none, none, some "Database insertion failed"⟩], queues⟩
  | none =>
    ⟨res.1, [⟨false, some (.jstr device_id), some (.jstr mac), some (.jstr ts),
              none, none, some "Database insertion failed"⟩], queues⟩

/-- `MQTTClient._handle_message` (`src/web/src/mqtt.py`) after payload
decoding: `none` is a `json.JSONDecodeError` (logged, nothing published);
otherwise validate fields, coerce types (a `float()` failure is caught by
the outer `except ValueError`/`except Exception` and only logged),
validate the timestamp, insert, acknowledge and broadcast.  The broadcast
callback is modelled as installed, as `lifespan` wires it at startup. -/
def handleMessage (decoded : Option (List (String × J))) (db : DB)
    (queues : List (List Event)) : HandleResult :=
  match decoded with
  | none => ⟨db, [], queues⟩
  | some data =>
    let missing := missingOf data
    if missing.isEmpty then
      match pyFloat? (getD data "temperature"), pyFloat? (getD data "humidity") with
      | some t, some h =>
        let device_id := pyStr (getD data "device_id")
        let mac := pyStr (getD data "mac_address")
        match getD data "timestamp" with
        | .jstr ts =>
          match fromisoformat? (normTs ts) with
          | none =>
            ⟨db, [⟨false, some (.jstr device_id), some (.jstr mac), some (.jstr ts),
                   none, none, some (tsFmtErrMsg ts)⟩], queues⟩
          | some _ => persistStage db queues device_id mac t h ts
        | tsJ =>
          ⟨db, [⟨false, some (.jstr device_id), some (.jstr mac), some (.jstr (pyStr tsJ)),
                 none, none, some (tsTypeErrMsg (pyTypeName tsJ))⟩], queues⟩
      | _, _ => ⟨db, [], queues⟩
    else
      ⟨db, [⟨false, getKey data "device_id", getKey data "mac_address",
             getKey data "timestamp", none, none, some (missingMsg missing)⟩], queues⟩

/-- `range_mapping.get(range, 1440)` in `get_device_chart_by_range`. -/
def rangeMapping (range : String) : Nat :=
  if range == "15d" then 21600
  else if range == "7d" then 10080
  else if range == "1d" then 1440
  else if range == "1h" then 60
  else if range == "30m" then 30
  else if range == "live" then 5
  else 1440

/-- `interval = max(1, total_records // target_points) if total_records > 0
else 1` with `target_points = 100`. -/
def computeInterval (total : Nat) : Nat :=
  if 0 < total then max 1 (total / 100) else 1

/-- `WHERE device_id = %s` on the stored rows. -/
def deviceRows (db : DB) (device : String) : List Reading :=
  db.rows.filter (fun r => r.device_id == device)

/-- The live-range row filter: `timestamp >= DATE_SUB(NOW(), INTERVAL m
MINUTE)` (the query imposes no upper bound). -/
def liveWindowRows (db : DB) (device : String) (now : Int) (minutes : Nat) : List Reading :=
  (deviceRows db device).filter (fun r => decide (now - (minutes : Int) * 60 ≤ dtEpoch r.timestamp))

/-- The fixed-window row filter: `timestamp >= first AND timestamp <=
DATE_ADD(first, INTERVAL m MINUTE)`. -/
def fixedWindowRows (db : DB) (device : String) (first : Int) (minutes : Nat) : List Reading :=
  (deviceRows db device).filter
    (fun r => decide (first ≤ dtEpoch r.timestamp) &&
              decide (dtEpoch r.timestamp ≤ first + (minutes : Int) * 60))

/-- Minimum of a list of integers. -/
def listMin? (l : List Int) : Option Int :=
  l.foldl (fun acc x => match acc with
    | none => some x
    | some m => some (min m x)) none

/-- `SELECT MIN(timestamp) ... WHERE device_id = %s`, as an epoch value. -/
def firstTs? (db : DB) (device : String) : Option Int :=
  listMin? ((deviceRows db device).map (fun r => dtEpoch r.timestamp))

/-- `ROW_NUMBER() OVER (ORDER BY timestamp ASC)` numbering followed by
`WHERE MOD(row_num - 1, interval) = 0`: keep the rows of the given order
whose 1-based row number is ≡ 1 (mod interval). -/
def sampleRows (interval : Nat) (ord : List Reading) : List Reading :=
  ((ord.enumFrom 1).filter (fun p => (p.1 - 1) % interval == 0)).map (fun p => p.2)

/-- Whether a list of rows is nondecreasing in the timestamp — the only
constraint `ORDER BY timestamp ASC` places on the returned order. -/
def sortedByTs : List Reading → Bool
  | [] => true
  | [_] => true
  | a :: b :: rest =>
    decide (dtEpoch a.timestamp ≤ dtEpoch b.timestamp) && sortedByTs (b :: rest)

/-- A legal result of `ORDER BY timestamp ASC` over `rows`: any
timestamp-sorted permutation (equal timestamps in database-chosen
order). -/
def validOrder (rows ord : List Reading) : Prop :=
  List.Perm rows ord ∧ sortedByTs ord = true

/-- A legal result of `ORDER BY timestamp DESC LIMIT 1` for the device:
`none` iff the device has no rows, otherwise any row of the device with
maximal timestamp. -/
def validCurrent (db : DB) (device : String) : Option Reading → Prop
  | none => deviceRows db device = []
  | some r => r ∈ deviceRows db device ∧
      ∀ s ∈ deviceRows db device, dtEpoch s.timestamp ≤ dtEpoch r.timestamp

instance (rows ord : List Reading) : Decidable (validOrder rows ord) := by
  unfold validOrder
  infer_instance

instance (db : DB) (device : String) : (c : Option Reading) →
    Decidable (validCurrent db device c)
  | none => by unfold validCurrent; infer_instance
  | some r => by unfold validCurrent; infer_instance

/-- One sampled history point as serialised by the range query
(`temperature`, `humidity`, `timestamp`, formatted `datetime`). -/
structure HistPoint where
  temperature : ℚ
  humidity : ℚ
  timestamp : DT
  datetime : String
deriving DecidableEq

def toHistPoint (r : Reading) : HistPoint :=
  ⟨r.temperature, r.humidity, r.timestamp, dtRender r.timestamp⟩

/-- The success payload of `/api/chart/range/{device_id}` (window bounds
as epoch seconds). -/
structure ChartOk where
  device_id : String
  range : String
  range_minutes : Nat
  window_start : Int
  window_end : Int
  total_records : Nat
  sampled_points : Nat
  sampling_interval : Nat
  current_temperature : ℚ
  current_humidity : ℚ
  current_timestamp : DT
  history : List HistPoint
deriving DecidableEq

/-- Outcome of the range query: a success payload or a JSON body with
`success: false` and an error string. -/
inductive ChartResult where
  | ok (payload : ChartOk)
  | err (error : String)
deriving DecidableEq

/-- `get_device_chart_by_range` (`src/web/src/main.py`).  `now` is
`NOW()`/`datetime.now()` as epoch seconds; `ord` is the row order the
database returned for the windowed `ROW_NUMBER` query (constrained by
`validOrder` in the theorems) and `cur?` the row returned by the
`ORDER BY timestamp DESC LIMIT 1` query (constrained by
`validCurrent`). -/
def getDeviceChartByRange (db : DB) (device range : String) (now : Int)
    (ord : List Reading) (cur? : Option Reading) : ChartResult :=
  let minutes := rangeMapping range
  if range == "live" then
    let total := (liveWindowRows db device now minutes).length
    let interval := computeInterval total
    let history := (sampleRows interval ord).map toHistPoint
    match cur? with
    | none => .err "No data found for this device"
    | some cur =>
      .ok ⟨device, range, minutes, now - (minutes : Int) * 60, now, total,
           history.length, interval, cur.temperature, cur.humidity, cur.timestamp, history⟩
  else
    match firstTs? db device with
    | none => .err "No data found for this device"
    | some first =>
      let total := (fixedWindowRows db device first minutes).length
      let interval := computeInterval total
      let history := (sampleRows interval ord).map toHistPoint
      match cur? with
      | none => .err "No data found for this device"
      | some cur =>
        .ok ⟨device, range, minutes, first, first + (minutes : Int) * 60, total,
             history.length, interval, cur.temperature, cur.humidity, cur.timestamp, history⟩

/-- The sampling rule in the spec's words: assign each row of the order a
zero-based index and keep those whose index is an exact multiple of the
interval (to be compared with `sampleRows`, which is translated from the
SQL's 1-based `ROW_NUMBER`). -/
def zeroIdxSample (interval : Nat) (ord : List Reading) : List Reading :=
  ((ord.enum).filter (fun p => p.1 % interval == 0)).map (fun p => p.2)

/-- Number of indices `n, n+1, …, n+len-1` divisible by `k`. -/
def keptCount (k n len : Nat) : Nat :=
  match len with
  | 0 => 0
  | len + 1 => (if n % k == 0 then 1 else 0) + keptCount k (n + 1) len

/-- `needle` occurs contiguously inside `hay`. -/
def containsSub (hay needle : String) : Prop :=
  ∃ a b : List Char, hay.data = a ++ needle.data ++ b

/-- Strict-timestamp-or-equal order on readings, used to show an order is
forced when all timestamps are distinct. -/
def tsLt (a b : Reading) : Prop :=
  dtEpoch a.timestamp < dtEpoch b.timestamp ∨ a = b

instance : IsAntisymm Reading tsLt where
  antisymm a b h1 h2 := by
    cases h1 with
    | inr e => exact e
    | inl lt1 =>
      cases h2 with
      | inr e => exact e.symm
      | inl lt2 => exact absurd lt2 (lt_asymm lt1)

/-- All rows of the list have pairwise distinct timestamps. -/
def distinctTs (l : List Reading) : Prop :=
  l.Pairwise (fun a b => dtEpoch a.timestamp ≠ dtEpoch b.timestamp)

/-- The ordering the spec claims for the windowed query: ascending
timestamp with ties broken by ascending `log_id` (to be compared with
what `ORDER BY timestamp ASC` actually guarantees). -/
def sortedByTsLogId : List Reading → Bool
  | [] => true
  | [_] => true
  | a :: b :: rest =>
    (decide (dtEpoch a.timestamp < dtEpoch b.timestamp) ||
      (decide (dtEpoch a.timestamp = dtEpoch b.timestamp) && decide (a.log_id ≤ b.log_id))) &&
    sortedByTsLogId (b :: rest)

/-- Concrete fixtures used by the closed witness/counterexample theorems. -/
def r0 : Reading := ⟨1, "d", "m", 20, 50, ⟨2025, 1, 11, 12, 0, 0⟩⟩

def db1 : DB := ⟨[r0], 2, true⟩

/-- Two rows of the same device sharing one timestamp, differing in
`log_id` and `temperature`. -/
def rA : Reading := ⟨1, "d", "m", 1, 0, ⟨2025, 1, 11, 12, 0, 0⟩⟩

def rB : Reading := ⟨2, "d", "m", 2, 0, ⟨2025, 1, 11, 12, 0, 0⟩⟩

def dbTie : DB := ⟨[rA, rB], 3, true⟩

/-- Two rows of one device with distinct timestamps. -/
def s1 : Reading := ⟨1, "d", "m", 20, 50, ⟨2025, 1, 11, 12, 0, 0⟩⟩

def s2 : Reading := ⟨2, "d", "m", 21, 51, ⟨2025, 1, 11, 12, 5, 0⟩⟩

def dbTwo : DB := ⟨[s1, s2], 3, true⟩

/-- 250 rows as returned (in some order) by the windowed query of a
device with exactly 250 in-window readings. -/
def ordBig250 : List Reading :=
  (List.range 250).map (fun i => ⟨i + 1, "d", "m", 0, 0, ⟨2025, 1, 1, 0, 0, 0⟩⟩)

/-- A decoded payload with every required field valid. -/
def dataGood : List (String × J) :=
  [("device_id", .jstr "esp32-01"), ("mac_address", .jstr "AA:BB:CC:DD:EE:FF"),
   ("temperature", .jfloat 25), ("humidity", .jfloat 60),
   ("timestamp", .jstr "2025-01-11T12:30:45Z")]

/-- A decoded payload whose `humidity` key is absent. -/
def dataNoHum : List (String × J) :=
  [("device_id", .jstr "esp32-01"), ("mac_address", .jstr "AA:BB:CC:DD:EE:FF"),
   ("temperature", .jfloat 25), ("timestamp", .jstr "2025-01-11T12:30:45Z")]

/-- A decoded payload carrying none of the identity fields. -/
def dataOnlyHum : List (String × J) := [("humidity", .jint 1)]

/-- All required fields present but `temperature` is a non-numeric
string, so `float(data["temperature"])` raises `ValueError`. -/
def dataBadTemp : List (String × J) :=
  [("device_id", .jstr "esp32-01"), ("mac_address", .jstr "AA:BB:CC:DD:EE:FF"),
   ("temperature", .jstr "abc"), ("humidity", .jint 50),
   ("timestamp", .jstr "2025-01-11 10:00:00")]

/-- All required fields present but the timestamp is the numeric epoch
`1736598645` rather than a string. -/
def dataNumTs : List (String × J) :=
  [("device_id", .jstr "esp32-01"), ("mac_address", .jstr "AA:BB:CC:DD:EE:FF"),
   ("temperature", .jfloat 25), ("humidity", .jfloat 60),
   ("timestamp", .jint 1736598645)]

/-- All required fields present but the timestamp string does not parse. -/
def dataBadFmt : List (String × J) :=
  [("device_id", .jstr "esp32-01"), ("mac_address", .jstr "AA:BB:CC:DD:EE:FF"),
   ("temperature", .jfloat 25), ("humidity", .jfloat 60),
   ("timestamp", .jstr "not-a-date")]

theorem strData_append (s t : String) : (s ++ t).data = s.data ++ t.data := rfl

theorem sampleShift (k : Nat) : ∀ (l : List Reading) (n : Nat),
    ((l.enumFrom (n + 1)).filter (fun p => (p.1 - 1) % k == 0)).map (fun p => p.2) =
    ((l.enumFrom n).filter (fun p => p.1 % k == 0)).map (fun p => p.2) := by
  intro l
  induction l with
  | nil => intro n; rfl
  | cons x xs ih =>
    intro n
    cases hc : (n % k == 0) with
    | true => simp [List.enumFrom, List.filter_cons, hc, ih (n + 1)]
    | false => simp [List.enumFrom, List.filter_cons, hc, ih (n + 1)]

theorem sampleRows_eq_zeroIdx (k : Nat) (l : List Reading) :
    sampleRows k l = zeroIdxSample k l :=
  sampleShift k l 0

theorem lenFilterEnum (k : Nat) : ∀ (l : List Reading) (n : Nat),
    (((l.enumFrom n).filter (fun p => p.1 % k == 0)).map (fun p => p.2)).length =
    keptCount k n l.length := by
  intro l
  induction l with
  | nil => intro n; rfl
  | cons x xs ih =>
    intro n
    cases hc : (n % k == 0) with
    | true =>
      simp [List.enumFrom, List.filter_cons, hc, keptCount, ih (n + 1)]
      omega
    | false =>
      simp [List.enumFrom, List.filter_cons, hc, keptCount, ih (n + 1)]

theorem sampleRows_length (k : Nat) (l : List Reading) :
    (sampleRows k l).length = keptCount k 0 l.length := by
  rw [sampleRows_eq_zeroIdx]
  exact lenFilterEnum k l 0

theorem sampleRows_head (k : Nat) (x : Reading) (xs : List Reading) :
    (sampleRows k (x :: xs)).head? = some x := by
  simp [sampleRows, List.enumFrom, List.filter_cons]

theorem sortedByTs_pairwise : ∀ l : List Reading, sortedByTs l = true →
    l.Pairwise (fun a b => dtEpoch a.timestamp ≤ dtEpoch b.timestamp) := by
  intro l
  induction l with
  | nil => intro _; exact List.Pairwise.nil
  | cons a t ih =>
    intro h
    cases t with
    | nil => exact List.pairwise_singleton _ a
    | cons b rest =>
      have h2 : (decide (dtEpoch a.timestamp ≤ dtEpoch b.timestamp) &&
          sortedByTs (b :: rest)) = true := h
      rw [Bool.and_eq_true] at h2
      have hab : dtEpoch a.timestamp ≤ dtEpoch b.timestamp := of_decide_eq_true h2.1
      have hrest := ih h2.2
      refine List.Pairwise.cons ?_ hrest
      intro x hx
      rcases List.mem_cons.mp hx with h' | h'
      · rw [h']; exact hab
      · exact le_trans hab (List.rel_of_pairwise_cons hrest h')

theorem validOrder_unique (rows o1 o2 : List Reading) (hd : distinctTs rows)
    (h1 : validOrder rows o1) (h2 : validOrder rows o2) : o1 = o2 := by
  have hd1 : distinctTs o1 := (h1.1.pairwise_iff (fun hab => Ne.symm hab)).mp hd
  have hd2 : distinctTs o2 := (h2.1.pairwise_iff (fun hab => Ne.symm hab)).mp hd
  have hs1 : List.Sorted tsLt o1 := by
    refine ((sortedByTs_pairwise o1 h1.2).and hd1).imp ?_
    intro a b hab
    exact Or.inl (lt_of_le_of_ne hab.1 hab.2)
  have hs2 : List.Sorted tsLt o2 := by
    refine ((sortedByTs_pairwise o2 h2.2).and hd2).imp ?_
    intro a b hab
    exact Or.inl (lt_of_le_of_ne hab.1 hab.2)
  exact List.eq_of_perm_of_sorted (h1.1.symm.trans h2.1) hs1 hs2

theorem validCurrent_unique (db : DB) (device : String) (c1 c2 : Reading)
    (hd : distinctTs (deviceRows db device))
    (h1 : validCurrent db device (some c1)) (h2 : validCurrent db device (some c2)) :
    c1 = c2 := by
  by_contra hne
  have heq : dtEpoch c1.timestamp = dtEpoch c2.timestamp :=
    le_antisymm (h2.2 c1 h1.1) (h1.2 c2 h2.1)
  have hsym : Symmetric (fun a b : Reading => dtEpoch a.timestamp ≠ dtEpoch b.timestamp) :=
    fun a b h => h.symm
  exact (hd.forall hsym h1.1 h2.1 hne) heq

theorem pyReprItems_mem : ∀ (l : List String) (f : String), f ∈ l →
    ∃ a b : List Char, (pyReprItems l).data = a ++ f.data ++ b := by
  intro l
  induction l with
  | nil => intro f hf; exact absurd hf (List.not_mem_nil f)
  | cons x xs ih =>
    intro f hf
    cases xs with
    | nil =>
      have hfx : f = x := by
        rcases List.mem_cons.mp hf with h | h
        · exact h
        · exact absurd h (List.not_mem_nil f)
      refine ⟨sq.data, sq.data, ?_⟩
      show (pyQuote x).data = sq.data ++ f.data ++ sq.data
      rw [hfx]
      simp only [pyQuote, strData_append, List.append_assoc]
    | cons y rest =>
      rcases List.mem_cons.mp hf with h | h
      · refine ⟨sq.data, sq.data ++ (", " ++ pyReprItems (y :: rest)).data, ?_⟩
        show (pyQuote x ++ ", " ++ pyReprItems (y :: rest)).data = _
        rw [h]
        simp only [pyQuote, strData_append, List.append_assoc]
      · rcases ih f h with ⟨a, b, hab⟩
        refine ⟨(pyQuote x ++ ", ").data ++ a, b, ?_⟩
        show (pyQuote x ++ ", " ++ pyReprItems (y :: rest)).data = _
        simp only [strData_append, hab, List.append_assoc]

theorem missingMsg_mentions (l : List String) (f : String) (hf : f ∈ l) :
    containsSub (missingMsg l) f := by
  rcases pyReprItems_mem l f hf with ⟨a, b, hab⟩
  refine ⟨("Missing fields: [" : String).data ++ a, b ++ ("]" : String).data, ?_⟩
  show ("Missing fields: [" ++ pyReprItems l ++ "]").data = _
  simp only [strData_append, hab, List.append_assoc]

theorem handleMessage_missing (data : List (String × J)) (db : DB)
    (queues : List (List Event)) (hm : missingOf data ≠ []) :
    handleMessage (some data) db queues =
      ⟨db, [⟨false, getKey data "device_id", getKey data "mac_address",
             getKey data "timestamp", none, none, some (missingMsg (missingOf data))⟩],
        queues⟩ := by
  have he : (missingOf data).isEmpty = false := by
    cases hmo : missingOf data with
    | nil => exact absurd hmo hm
    | cons a l => rfl
  simp [handleMessage, he]

theorem hasKey_of_getKey {data : List (String × J)} {k : String} {v : J}
    (h : getKey data k = some v) : hasKey data k = true := by
  rw [hasKey, h]; rfl

theorem getD_of_getKey {data : List (String × J)} {k : String} {v : J}
    (h : getKey data k = some v) : getD data k = v := by
  rw [getD, h]; rfl

theorem missingOf_nil {data : List (String × J)}
    (h1 : hasKey data "device_id" = true) (h2 : hasKey data "mac_address" = true)
    (h3 : hasKey data "temperature" = true) (h4 : hasKey data "humidity" = true)
    (h5 : hasKey data "timestamp" = true) : missingOf data = [] := by
  simp [missingOf, requiredFields, h1, h2, h3, h4, h5]

theorem handleMessage_valid (data : List (String × J)) (db : DB)
    (queues : List (List Event)) (did mac : String) (tJ hJ : J) (t h : ℚ)
    (ts : String) (dt : DT)
    (hdid : getKey data "device_id" = some (.jstr did))
    (hmac : getKey data "mac_address" = some (.jstr mac))
    (htJ : getKey data "temperature" = some tJ) (ht : pyFloat? tJ = some t)
    (hhJ : getKey data "humidity" = some hJ) (hh : pyFloat? hJ = some h)
    (hts : getKey data "timestamp" = some (.jstr ts))
    (hdt : fromisoformat? (normTs ts) = some dt) :
    handleMessage (some data) db queues = persistStage db queues did mac t h ts := by
  have hm : missingOf data = [] :=
    missingOf_nil (hasKey_of_getKey hdid) (hasKey_of_getKey hmac)
      (hasKey_of_getKey htJ) (hasKey_of_getKey hhJ) (hasKey_of_getKey hts)
  simp [handleMessage, hm, getD_of_getKey hdid, getD_of_getKey hmac,
    getD_of_getKey htJ, getD_of_getKey hhJ, getD_of_getKey hts, ht, hh, hdt, pyStr]

theorem handleMessage_tsNotStr (data : List (String × J)) (db : DB)
    (queues : List (List Event)) (did mac : String) (tJ hJ tsJ : J) (t h : ℚ)
    (hdid : getKey data "device_id" = some (.jstr did))
    (hmac : getKey data "mac_address" = some (.jstr mac))
    (htJ : getKey data "temperature" = some tJ) (ht : pyFloat? tJ = some t)
    (hhJ : getKey data "humidity" = some hJ) (hh : pyFloat? hJ = some h)
    (hts : getKey data "timestamp" = some tsJ) (hIs : isJStr tsJ = false) :
    handleMessage (some data) db queues =
      ⟨db, [⟨false, some (.jstr did), some (.jstr mac), some (.jstr (pyStr tsJ)),
             none, none, some (tsTypeErrMsg (pyTypeName tsJ))⟩], queues⟩ := by
  have hm : missingOf data = [] :=
    missingOf_nil (hasKey_of_getKey hdid) (hasKey_of_getKey hmac)
      (hasKey_of_getKey htJ) (hasKey_of_getKey hhJ) (hasKey_of_getKey hts)
  cases tsJ with
  | jstr s => exact absurd hIs (by simp [isJStr])
  | jnull =>
    simp [handleMessage, hm, getD_of_getKey hdid, getD_of_getKey hmac,
      getD_of_getKey htJ, getD_of_getKey hhJ, getD_of_getKey hts, ht, hh, pyStr]
  | jbool b =>
    simp [handleMessage, hm, getD_of_getKey hdid, getD_of_getKey hmac,
      getD_of_getKey htJ, getD_of_getKey hhJ, getD_of_getKey hts, ht, hh, pyStr]
  | jint n =>
    simp [handleMessage, hm, getD_of_getKey hdid, getD_of_getKey hmac,
      getD_of_getKey htJ, getD_of_getKey hhJ, getD_of_getKey hts, ht, hh, pyStr]
  | jfloat q =>
    simp [handleMessage, hm, getD_of_getKey hdid, getD_of_getKey hmac,
      getD_of_getKey htJ, getD_of_getKey hhJ, getD_of_getKey hts, ht, hh, pyStr]
  | jarr es =>
    simp [handleMessage, hm, getD_of_getKey hdid, getD_of_getKey hmac,
      getD_of_getKey htJ, getD_of_getKey hhJ, getD_of_getKey hts, ht, hh, pyStr]
  | jobj fs =>
    simp [handleMessage, hm, getD_of_getKey hdid, getD_of_getKey hmac,
      getD_of_getKey htJ, getD_of_getKey hhJ, getD_of_getKey hts, ht, hh, pyStr]

theorem handleMessage_tsBadFmt (data : List (String × J)) (db : DB)
    (queues : List (List Event)) (did mac : String) (tJ hJ : J) (t h : ℚ)
    (ts : String)
    (hdid : getKey data "device_id" = some (.jstr did))
    (hmac : getKey data "mac_address" = some (.jstr mac))
    (htJ : getKey data "temperature" = some tJ) (ht : pyFloat? tJ = some t)
    (hhJ : getKey data "humidity" = some hJ) (hh : pyFloat? hJ = some h)
    (hts : getKey data "timestamp" = some (.jstr ts))
    (hdt : fromisoformat? (normTs ts) = none) :
    handleMessage (some data) db queues =
      ⟨db, [⟨false, some (.jstr did), some (.jstr mac), some (.jstr ts),
             none, none, some (tsFmtErrMsg ts)⟩], queues⟩ := by
  have hm : missingOf data = [] :=
    missingOf_nil (hasKey_of_getKey hdid) (hasKey_of_getKey hmac)
      (hasKey_of_getKey htJ) (hasKey_of_getKey hhJ) (hasKey_of_getKey hts)
  simp [handleMessage, hm, getD_of_getKey hdid, getD_of_getKey hmac,
    getD_of_getKey htJ, getD_of_getKey hhJ, getD_of_getKey hts, ht, hh, hdt, pyStr]

theorem handleMessage_floatRaise (data : List (String × J)) (db : DB)
    (queues : List (List Event)) (tJ hJ : J)
    (h1 : hasKey data "device_id" = true) (h2 : hasKey data "mac_address" = true)
    (h5 : hasKey data "timestamp" = true)
    (htJ : getKey data "temperature" = some tJ)
    (hhJ : getKey data "humidity" = some hJ)
    (hfail : pyFloat? tJ = none ∨ pyFloat? hJ = none) :
    handleMessage (some data) db queues = ⟨db, [], queues⟩ := by
  have hm : missingOf data = [] :=
    missingOf_nil h1 h2 (hasKey_of_getKey htJ) (hasKey_of_getKey hhJ) h5
  rcases hfail with hf | hf
  · simp [handleMessage, hm, getD_of_getKey htJ, hf]
  · cases hft : pyFloat? (getD data "temperature") with
    | none => simp [handleMessage, hm, hft]
    | some t => simp [handleMessage, hm, hft, getD_of_getKey hhJ, hf]

/-- Claim C1: for every inbound message that decodes to an object carrying
all five required fields with string identity fields, float-coercible
temperature and humidity, and a string timestamp that parses after
normalisation (and with the database up, as the claim presumes a
successful persist), the pipeline persists exactly one `Reading` with the
submitted values (timestamp stored as the parse of the normalised
string), publishes exactly one success acknowledgment echoing the
original unnormalised timestamp with the freshly assigned `log_id`, and
appends exactly one broadcast event to every currently registered
observer queue. -/
theorem claim_C1_valid_message_pipeline (data : List (String × J)) (db : DB)
    (queues : List (List Event)) (did mac : String) (tJ hJ : J) (t h : ℚ)
    (ts : String) (dt : DT)
    (hdid : getKey data "device_id" = some (.jstr did))
    (hmac : getKey data "mac_address" = some (.jstr mac))
    (htJ : getKey data "temperature" = some tJ) (ht : pyFloat? tJ = some t)
    (hhJ : getKey data "humidity" = some hJ) (hh : pyFloat? hJ = some h)
    (hts : getKey data "timestamp" = some (.jstr ts))
    (hdt : fromisoformat? (normTs ts) = some dt)
    (hok : db.ok = true) (hpos : 0 < db.nextId) :
    handleMessage (some data) db queues =
      ⟨⟨db.rows ++ [⟨db.nextId, did, mac, t, h, dt⟩], db.nextId + 1, true⟩,
       [⟨true, some (.jstr did), some (.jstr mac), some (.jstr ts), some db.nextId,
         some "Data logged successfully", none⟩],
       queues.map (fun q => q ++ [mkEvent db.nextId did mac t h ts])⟩ := by
  rw [handleMessage_valid data db queues did mac tJ hJ t h ts dt hdid hmac htJ ht hhJ hh hts hdt]
  have hins : insertSensorData db did mac t h ts =
      (⟨db.rows ++ [⟨db.nextId, did, mac, t, h, dt⟩], db.nextId + 1, db.ok⟩, some db.nextId) := by
    simp [insertSensorData, hdt, hok]
  have hnz : db.nextId ≠ 0 := Nat.pos_iff_ne_zero.mp hpos
  simp [persistStage, hins, hok, hnz, broadcastNewLog]

/-- Witness for C1 at a concrete valid message on a fresh database with
one registered observer. -/
theorem claim_C1_witness :
    (0 : Nat) < (1 : Nat) ∧
    handleMessage (some dataGood) ⟨[], 1, true⟩ [[]] =
      ⟨⟨[⟨1, "esp32-01", "AA:BB:CC:DD:EE:FF", 25, 60, ⟨2025, 1, 11, 12, 30, 45⟩⟩], 2, true⟩,
       [⟨true, some (.jstr "esp32-01"), some (.jstr "AA:BB:CC:DD:EE:FF"),
         some (.jstr "2025-01-11T12:30:45Z"), some 1, some "Data logged successfully", none⟩],
       [[mkEvent 1 "esp32-01" "AA:BB:CC:DD:EE:FF" 25 60 "2025-01-11T12:30:45Z"]]⟩ :=
  ⟨Nat.zero_lt_one,
   claim_C1_valid_message_pipeline dataGood ⟨[], 1, true⟩ [[]] "esp32-01" "AA:BB:CC:DD:EE:FF"
     (.jfloat 25) (.jfloat 60) 25 60 "2025-01-11T12:30:45Z" ⟨2025, 1, 11, 12, 30, 45⟩
     rfl rfl rfl rfl rfl rfl rfl rfl rfl Nat.zero_lt_one⟩

/-- Claim C6: a decoded message missing at least one required field gets
exactly one failure acknowledgment whose error text names each missing
field, and no row is persisted. -/
theorem claim_C6_missing_fields (data : List (String × J)) (db : DB)
    (queues : List (List Event)) (hm : missingOf data ≠ []) :
    handleMessage (some data) db queues =
      ⟨db, [⟨false, getKey data "device_id", getKey data "mac_address",
             getKey data "timestamp", none, none, some (missingMsg (missingOf data))⟩],
        queues⟩ ∧
    ∀ f ∈ missingOf data, containsSub (missingMsg (missingOf data)) f :=
  ⟨handleMessage_missing data db queues hm,
   fun f hf => missingMsg_mentions (missingOf data) f hf⟩

/-- Witness for C6: a message missing exactly `humidity` yields one
failure acknowledgment whose text contains `humidity`, and the database
is unchanged. -/
theorem claim_C6_witness :
    missingOf dataNoHum = ["humidity"] ∧
    (handleMessage (some dataNoHum) ⟨[], 1, true⟩ []).db = ⟨[], 1, true⟩ ∧
    containsSub (missingMsg (missingOf dataNoHum)) "humidity" := by
  refine ⟨rfl, ?_, ?_⟩
  · rw [(claim_C6_missing_fields dataNoHum ⟨[], 1, true⟩ [] (by decide)).1]
  · exact (claim_C6_missing_fields dataNoHum ⟨[], 1, true⟩ [] (by decide)).2 "humidity"
      (by decide)

/-- Claim C8: a payload that does not decode as JSON is terminal — the
database is unchanged, no acknowledgment is published and no broadcast
is emitted. -/
theorem claim_C8_undecodable_silent (db : DB) (queues : List (List Event)) :
    (handleMessage none db queues).db = db ∧ (handleMessage none db queues).acks = [] ∧
    (handleMessage none db queues).queues = queues :=
  ⟨rfl, rfl, rfl⟩

/-- Claim C10: the failure acknowledgment for a missing-field violation
echoes whatever identity values are present in the partial payload and
carries `null` (here `none`) for each identity key that is itself
absent. -/
theorem claim_C10_null_identity (data : List (String × J)) (db : DB)
    (queues : List (List Event)) (hm : missingOf data ≠ []) :
    ∃ a, (handleMessage (some data) db queues).acks = [a] ∧
      a.device_id = getKey data "device_id" ∧
      a.mac_address = getKey data "mac_address" ∧
      a.timestamp = getKey data "timestamp" ∧
      (hasKey data "device_id" = false → a.device_id = none) ∧
      (hasKey data "mac_address" = false → a.mac_address = none) ∧
      (hasKey data "timestamp" = false → a.timestamp = none) := by
  refine ⟨_, by rw [handleMessage_missing data db queues hm], rfl, rfl, rfl, ?_, ?_, ?_⟩
  · intro h
    rw [hasKey] at h
    exact Option.not_isSome_iff_eq_none.mp (by rw [h]; exact Bool.false_ne_true)
  · intro h
    rw [hasKey] at h
    exact Option.not_isSome_iff_eq_none.mp (by rw [h]; exact Bool.false_ne_true)
  · intro h
    rw [hasKey] at h
    exact Option.not_isSome_iff_eq_none.mp (by rw [h]; exact Bool.false_ne_true)

/-- Witness for C10: a payload with none of the identity keys yields one
failure acknowledgment whose identity components are all null. -/
theorem claim_C10_witness :
    ∃ a, (handleMessage (some dataOnlyHum) ⟨[], 1, true⟩ []).acks = [a] ∧
      a.device_id = none ∧ a.mac_address = none ∧ a.timestamp = none := by
  rcases claim_C10_null_identity dataOnlyHum ⟨[], 1, true⟩ [] (by decide)
    with ⟨a, h1, _, _, _, h5, h6, h7⟩
  exact ⟨a, h1, h5 rfl, h6 rfl, h7 rfl⟩

/-- Claim C9: `insert_sensor_data_from_mqtt` never raises — it returns
either the positive fresh `log_id` or `None` (leaving the table
unchanged), and when it returns `None` under a database error the
pipeline publishes exactly the `Database insertion failed` failure
acknowledgment. -/
theorem claim_C9_insert_total_and_mapped :
    (∀ (db : DB) (did mac : String) (t h : ℚ) (ts : String), 0 < db.nextId →
      insertSensorData db did mac t h ts = (db, none) ∨
      ∃ id, 0 < id ∧ (insertSensorData db did mac t h ts).2 = some id) ∧
    (∀ (data : List (String × J)) (db : DB) (queues : List (List Event))
       (did mac : String) (tJ hJ : J) (t h : ℚ) (ts : String) (dt : DT),
      getKey data "device_id" = some (.jstr did) →
      getKey data "mac_address" = some (.jstr mac) →
      getKey data "temperature" = some tJ → pyFloat? tJ = some t →
      getKey data "humidity" = some hJ → pyFloat? hJ = some h →
      getKey data "timestamp" = some (.jstr ts) →
      fromisoformat? (normTs ts) = some dt → db.ok = false →
      handleMessage (some data) db queues =
        ⟨db, [⟨false, some (.jstr did), some (.jstr mac), some (.jstr ts),
               none, none, some "Database insertion failed"⟩], queues⟩) := by
  constructor
  · intro db did mac t h ts hpos
    cases hp : fromisoformat? (normTs ts) with
    | none => exact Or.inl (by simp [insertSensorData, hp])
    | some dt =>
      cases hok : db.ok with
      | false => exact Or.inl (by simp [insertSensorData, hp, hok])
      | true => exact Or.inr ⟨db.nextId, hpos, by simp [insertSensorData, hp, hok]⟩
  · intro data db queues did mac tJ hJ t h ts dt hdid hmac htJ ht hhJ hh hts hdt hok
    rw [handleMessage_valid data db queues did mac tJ hJ t h ts dt hdid hmac htJ ht hhJ hh
      hts hdt]
    have hins : insertSensorData db did mac t h ts = (db, none) := by
      simp [insertSensorData, hdt, hok]
    simp [persistStage, hins]

/-- Witness for C9: a successful insert on a fresh table returns
`log_id = 1 > 0`, and the same valid message against a failing database
produces only the `Database insertion failed` acknowledgment. -/
theorem claim_C9_witness :
    (insertSensorData ⟨[], 1, true⟩ "esp32-01" "AA:BB:CC:DD:EE:FF" 25 60
        "2025-01-11T12:30:45Z" = (⟨[], 1, true⟩, none) ∨
      ∃ id, 0 < id ∧ (insertSensorData ⟨[], 1, true⟩ "esp32-01" "AA:BB:CC:DD:EE:FF" 25 60
        "2025-01-11T12:30:45Z").2 = some id) ∧
    handleMessage (some dataGood) ⟨[], 1, false⟩ [] =
      ⟨⟨[], 1, false⟩, [⟨false, some (.jstr "esp32-01"), some (.jstr "AA:BB:CC:DD:EE:FF"),
         some (.jstr "2025-01-11T12:30:45Z"), none, none,
         some "Database insertion failed"⟩], []⟩ :=
  ⟨claim_C9_insert_total_and_mapped.1 ⟨[], 1, true⟩ "esp32-01" "AA:BB:CC:DD:EE:FF" 25 60
     "2025-01-11T12:30:45Z" Nat.zero_lt_one,
   claim_C9_insert_total_and_mapped.2 dataGood ⟨[], 1, false⟩ [] "esp32-01"
     "AA:BB:CC:DD:EE:FF" (.jfloat 25) (.jfloat 60) 25 60 "2025-01-11T12:30:45Z"
     ⟨2025, 1, 11, 12, 30, 45⟩ rfl rfl rfl rfl rfl rfl rfl rfl rfl⟩

/-- Counterexample to claim C5 as stated: a decoded message with all five
required fields whose `temperature` is the non-numeric string `abc`
persists no row but also publishes NO acknowledgment (the `ValueError`
from `float()` is caught by the outer handler and only logged), whereas
the claim demands exactly one failure acknowledgment for every
type-check failure including non-coercible temperature/humidity. -/
theorem claim_C5_counterexample :
    (∀ f ∈ requiredFields, hasKey dataBadTemp f = true) ∧
    pyFloat? (getD dataBadTemp "temperature") = none ∧
    (handleMessage (some dataBadTemp) ⟨[], 1, true⟩ []).acks = [] ∧
    (handleMessage (some dataBadTemp) ⟨[], 1, true⟩ []).acks.length ≠ 1 ∧
    (handleMessage (some dataBadTemp) ⟨[], 1, true⟩ []).db = ⟨[], 1, true⟩ :=
  ⟨by decide, rfl, rfl, by decide, rfl⟩

/-- Claim C5 as amended: with all required fields present and temperature
and humidity coercible, a non-string timestamp yields exactly one failure
acknowledgment describing the expected type, and an unparsable timestamp
string yields exactly one failure acknowledgment describing the expected
format, in both cases persisting no row; but a message whose temperature
or humidity is not float-coercible persists no row and publishes no
acknowledgment at all (the coercion error is only logged). -/
theorem claim_C5_type_format_handling :
    (∀ (data : List (String × J)) (db : DB) (queues : List (List Event))
       (did mac : String) (tJ hJ tsJ : J) (t h : ℚ),
      getKey data "device_id" = some (.jstr did) →
      getKey data "mac_address" = some (.jstr mac) →
      getKey data "temperature" = some tJ → pyFloat? tJ = some t →
      getKey data "humidity" = some hJ → pyFloat? hJ = some h →
      getKey data "timestamp" = some tsJ → isJStr tsJ = false →
      handleMessage (some data) db queues =
        ⟨db, [⟨false, some (.jstr did), some (.jstr mac), some (.jstr (pyStr tsJ)),
               none, none, some (tsTypeErrMsg (pyTypeName tsJ))⟩], queues⟩) ∧
    (∀ (data : List (String × J)) (db : DB) (queues : List (List Event))
       (did mac : String) (tJ hJ : J) (t h : ℚ) (ts : String),
      getKey data "device_id" = some (.jstr did) →
      getKey data "mac_address" = some (.jstr mac) →
      getKey data "temperature" = some tJ → pyFloat? tJ = some t →
      getKey data "humidity" = some hJ → pyFloat? hJ = some h →
      getKey data "timestamp" = some (.jstr ts) →
      fromisoformat? (normTs ts) = none →
      handleMessage (some data) db queues =
        ⟨db, [⟨false, some (.jstr did), some (.jstr mac), some (.jstr ts),
               none, none, some (tsFmtErrMsg ts)⟩], queues⟩) ∧
    (∀ (data : List (String × J)) (db : DB) (queues : List (List Event)) (tJ hJ : J),
      hasKey data "device_id" = true → hasKey data "mac_address" = true →
      hasKey data "timestamp" = true →
      getKey data "temperature" = some tJ → getKey data "humidity" = some hJ →
      (pyFloat? tJ = none ∨ pyFloat? hJ = none) →
      handleMessage (some data) db queues = ⟨db, [], queues⟩) :=
  ⟨fun data db queues did mac tJ hJ tsJ t h hdid hmac htJ ht hhJ hh hts hIs =>
     handleMessage_tsNotStr data db queues did mac tJ hJ tsJ t h hdid hmac htJ ht hhJ hh
       hts hIs,
   fun data db queues did mac tJ hJ t h ts hdid hmac htJ ht hhJ hh hts hdt =>
     handleMessage_tsBadFmt data db queues did mac tJ hJ t h ts hdid hmac htJ ht hhJ hh
       hts hdt,
   fun data db queues tJ hJ h1 h2 h5 htJ hhJ hfail =>
     handleMessage_floatRaise data db queues tJ hJ h1 h2 h5 htJ hhJ hfail⟩

/-- Witness for the amended C5: the spec's own example (numeric timestamp
`1736598645`) gets one type-error acknowledgment, `not-a-date` gets one
format-error acknowledgment, and the `abc` temperature gets none. -/
theorem claim_C5_witness :
    handleMessage (some dataNumTs) ⟨[], 1, true⟩ [] =
      ⟨⟨[], 1, true⟩, [⟨false, some (.jstr "esp32-01"), some (.jstr "AA:BB:CC:DD:EE:FF"),
         some (.jstr "1736598645"), none, none,
         some (tsTypeErrMsg "int")⟩], []⟩ ∧
    handleMessage (some dataBadFmt) ⟨[], 1, true⟩ [] =
      ⟨⟨[], 1, true⟩, [⟨false, some (.jstr "esp32-01"), some (.jstr "AA:BB:CC:DD:EE:FF"),
         some (.jstr "not-a-date"), none, none,
         some (tsFmtErrMsg "not-a-date")⟩], []⟩ ∧
    handleMessage (some dataBadTemp) ⟨[], 1, true⟩ [] = ⟨⟨[], 1, true⟩, [], []⟩ :=
  ⟨claim_C5_type_format_handling.1 dataNumTs ⟨[], 1, true⟩ [] "esp32-01"
     "AA:BB:CC:DD:EE:FF" (.jfloat 25) (.jfloat 60) (.jint 1736598645) 25 60
     rfl rfl rfl rfl rfl rfl rfl rfl,
   claim_C5_type_format_handling.2.1 dataBadFmt ⟨[], 1, true⟩ [] "esp32-01"
     "AA:BB:CC:DD:EE:FF" (.jfloat 25) (.jfloat 60) 25 60 "not-a-date"
     rfl rfl rfl rfl rfl rfl rfl rfl,
   claim_C5_type_format_handling.2.2 dataBadTemp ⟨[], 1, true⟩ []
     (.jstr "abc") (.jint 50) rfl rfl rfl rfl rfl (Or.inl rfl)⟩

/-- Claim C7: a range query for a device with no readings at all reports
the structured `No data found for this device` failure (success flag
false), for every range token and on both the live and the fixed-window
code path, rather than throwing or returning an empty-series success. -/
theorem claim_C7_no_data_failure (db : DB) (device range : String) (now : Int)
    (ord : List Reading) (cur? : Option Reading)
    (hdev : deviceRows db device = [])
    (hcur : validCurrent db device cur?) :
    getDeviceChartByRange db device range now ord cur? =
      .err "No data found for this device" := by
  have hcn : cur? = none := by
    cases cur? with
    | none => rfl
    | some r =>
      have hmem : r ∈ deviceRows db device := hcur.1
      rw [hdev] at hmem
      exact absurd hmem (List.not_mem_nil r)
  subst hcn
  have hfirst : firstTs? db device = none := by
    rw [firstTs?, hdev]; rfl
  cases hlive : (range == "live") with
  | true => simp [getDeviceChartByRange, hlive]
  | false => simp [getDeviceChartByRange, hlive, hfirst]

/-- Witness for C7 on an empty store, exercised through the fixed-window
path and the live path. -/
theorem claim_C7_witness :
    deviceRows ⟨[], 1, true⟩ "dev-A" = [] ∧
    getDeviceChartByRange ⟨[], 1, true⟩ "dev-A" "1d" 0 [] none =
      .err "No data found for this device" ∧
    getDeviceChartByRange ⟨[], 1, true⟩ "dev-A" "live" 0 [] none =
      .err "No data found for this device" :=
  ⟨rfl, claim_C7_no_data_failure ⟨[], 1, true⟩ "dev-A" "1d" 0 [] none rfl rfl,
   claim_C7_no_data_failure ⟨[], 1, true⟩ "dev-A" "live" 0 [] none rfl rfl⟩

/-- Claim C3: the range-token table maps `live` to 5 minutes and the
other tokens to their minute counts with unrecognized tokens falling back
to 1440; a `live` query reports the rolling window `[now − 5 min, now]`;
every non-`live` (recognized or fallback) query reports the fixed window
`[first, first + duration]` anchored at the device's first-ever
reading. -/
theorem claim_C3_window_semantics :
    (rangeMapping "live" = 5 ∧ rangeMapping "15d" = 21600 ∧ rangeMapping "7d" = 10080 ∧
      rangeMapping "1d" = 1440 ∧ rangeMapping "1h" = 60 ∧ rangeMapping "30m" = 30) ∧
    (∀ tok : String, tok ≠ "15d" → tok ≠ "7d" → tok ≠ "1d" → tok ≠ "1h" → tok ≠ "30m" →
      tok ≠ "live" → rangeMapping tok = 1440) ∧
    (∀ (db : DB) (device : String) (now : Int) (ord : List Reading) (cur : Reading)
       (p : ChartOk), getDeviceChartByRange db device "live" now ord (some cur) = .ok p →
      p.window_start = now - 5 * 60 ∧ p.window_end = now) ∧
    (∀ (db : DB) (device range : String) (now : Int) (ord : List Reading)
       (cur? : Option Reading) (first : Int) (p : ChartOk), range ≠ "live" →
      firstTs? db device = some first →
      getDeviceChartByRange db device range now ord cur? = .ok p →
      p.window_start = first ∧
      p.window_end = first + (rangeMapping range : Int) * 60) := by
  refine ⟨⟨rfl, rfl, rfl, rfl, rfl, rfl⟩, ?_, ?_, ?_⟩
  · intro tok h1 h2 h3 h4 h5 h6
    simp [rangeMapping, h1, h2, h3, h4, h5, h6]
  · intro db device now ord cur p hp
    simp [getDeviceChartByRange] at hp
    rw [← hp]
    exact ⟨rfl, rfl⟩
  · intro db device range now ord cur? first p hne hfirst hp
    have hb : (range == "live") = false := by simp [hne]
    rw [getDeviceChartByRange] at hp
    rw [hb] at hp
    simp only [Bool.false_eq_true, if_false, hfirst] at hp
    cases cur? with
    | none => exact absurd hp (by simp)
    | some cur =>
      simp only [ChartResult.ok.injEq] at hp
      rw [← hp]
      exact ⟨rfl, rfl⟩

/-- Witness for C3: the unrecognized token `2h` falls back to 1440; a
concrete `live` query reports `[now − 300 s, now]`; a concrete `7d`
query reports the window anchored at the device's first reading. -/
theorem claim_C3_witness :
    rangeMapping "2h" = 1440 ∧
    (∃ p : ChartOk, getDeviceChartByRange db1 "d" "live" 1736596800 [r0] (some r0) = .ok p ∧
      p.window_start = 1736596800 - 5 * 60 ∧ p.window_end = 1736596800) ∧
    (∃ p : ChartOk, getDeviceChartByRange db1 "d" "7d" 0 [r0] (some r0) = .ok p ∧
      p.window_start = 1736596800 ∧
      p.window_end = 1736596800 + (rangeMapping "7d" : Int) * 60) := by
  refine ⟨claim_C3_window_semantics.2.1 "2h" (by decide) (by decide) (by decide) (by decide)
    (by decide) (by decide), ?_, ?_⟩
  · refine ⟨⟨"d", "live", 5, 1736596500, 1736596800, 1, 1, 1, 20, 50, ⟨2025, 1, 11, 12, 0, 0⟩,
      [⟨20, 50, ⟨2025, 1, 11, 12, 0, 0⟩, "2025-01-11 12:00:00"⟩]⟩, by decide, ?_⟩
    exact claim_C3_window_semantics.2.2.1 db1 "d" 1736596800 [r0] r0 _ (by decide)
  · refine ⟨⟨"d", "7d", 10080, 1736596800, 1737201600, 1, 1, 1, 20, 50,
      ⟨2025, 1, 11, 12, 0, 0⟩, [⟨20, 50, ⟨2025, 1, 11, 12, 0, 0⟩, "2025-01-11 12:00:00"⟩]⟩,
      by decide, ?_⟩
    exact claim_C3_window_semantics.2.2.2 db1 "d" "7d" 0 [r0] (some r0) 1736596800 _
      (by decide) (by decide) (by decide)

/-- Claim C2: on the fixed-window path with at least one in-window row,
the engine uses `interval = max(1, floor(total/100))`, its history is
exactly the ordered in-window rows whose zero-based index is a multiple
of the interval, and the earliest ordered row is always first in the
history; and an order of exactly 250 rows gives interval 2 and exactly
125 sampled points with the earliest row kept. -/
theorem claim_C2_downsampling :
    (∀ (db : DB) (device range : String) (now : Int) (ord : List Reading) (cur : Reading)
       (first : Int), range ≠ "live" → firstTs? db device = some first →
      validOrder (fixedWindowRows db device first (rangeMapping range)) ord →
      0 < (fixedWindowRows db device first (rangeMapping range)).length →
      ∃ p : ChartOk, getDeviceChartByRange db device range now ord (some cur) = .ok p ∧
        p.total_records = (fixedWindowRows db device first (rangeMapping range)).length ∧
        p.sampling_interval = max 1 (p.total_records / 100) ∧
        p.history = (zeroIdxSample p.sampling_interval ord).map toHistPoint ∧
        p.history.head? = ord.head?.map toHistPoint ∧ ord.head? ≠ none) ∧
    (∀ (db : DB) (device : String) (now : Int) (ord : List Reading) (cur : Reading),
      validOrder (liveWindowRows db device now (rangeMapping "live")) ord →
      0 < (liveWindowRows db device now (rangeMapping "live")).length →
      ∃ p : ChartOk, getDeviceChartByRange db device "live" now ord (some cur) = .ok p ∧
        p.total_records = (liveWindowRows db device now (rangeMapping "live")).length ∧
        p.sampling_interval = max 1 (p.total_records / 100) ∧
        p.history = (zeroIdxSample p.sampling_interval ord).map toHistPoint ∧
        p.history.head? = ord.head?.map toHistPoint ∧ ord.head? ≠ none) ∧
    (∀ ord : List Reading, ord.length = 250 →
      computeInterval ord.length = 2 ∧
      (sampleRows (computeInterval ord.length) ord).length = 125 ∧
      (sampleRows 2 ord).head? = ord.head?) := by
  refine ⟨?_, ?_, ?_⟩
  · intro db device range now ord cur first hne hfirst hord hpos
    have hb : (range == "live") = false := by simp [hne]
    have hchart : getDeviceChartByRange db device range now ord (some cur) =
        .ok ⟨device, range, rangeMapping range, first,
             first + (rangeMapping range : Int) * 60,
             (fixedWindowRows db device first (rangeMapping range)).length,
             ((sampleRows (computeInterval
               (fixedWindowRows db device first (rangeMapping range)).length) ord).map
                 toHistPoint).length,
             computeInterval (fixedWindowRows db device first (rangeMapping range)).length,
             cur.temperature, cur.humidity, cur.timestamp,
             (sampleRows (computeInterval
               (fixedWindowRows db device first (rangeMapping range)).length) ord).map
                 toHistPoint⟩ := by
      simp [getDeviceChartByRange, hb, hfirst]
    have hlen : (fixedWindowRows db device first (rangeMapping range)).length = ord.length :=
      hord.1.length_eq
    refine ⟨_, hchart, rfl, ?_, ?_, ?_, ?_⟩
    · show computeInterval (fixedWindowRows db device first (rangeMapping range)).length =
        max 1 ((fixedWindowRows db device first (rangeMapping range)).length / 100)
      rw [computeInterval, if_pos hpos]
    · show (sampleRows _ ord).map toHistPoint = (zeroIdxSample _ ord).map toHistPoint
      rw [sampleRows_eq_zeroIdx]
    · cases hOrd : ord with
      | nil =>
        rw [hOrd] at hlen
        simp at hlen
        rw [hlen] at hpos
        exact absurd hpos (by decide)
      | cons x xs =>
        show ((sampleRows _ (x :: xs)).map toHistPoint).head? =
          ((x :: xs).head?).map toHistPoint
        rw [List.head?_map, sampleRows_head]
        rfl
    · cases hOrd : ord with
      | nil =>
        rw [hOrd] at hlen
        simp at hlen
        rw [hlen] at hpos
        exact absurd hpos (by decide)
      | cons x xs => simp
  · intro db device now ord cur hord hpos
    have hchart : getDeviceChartByRange db device "live" now ord (some cur) =
        .ok ⟨device, "live", rangeMapping "live",
             now - (rangeMapping "live" : Int) * 60, now,
             (liveWindowRows db device now (rangeMapping "live")).length,
             ((sampleRows (computeInterval
               (liveWindowRows db device now (rangeMapping "live")).length) ord).map
                 toHistPoint).length,
             computeInterval (liveWindowRows db device now (rangeMapping "live")).length,
             cur.temperature, cur.humidity, cur.timestamp,
             (sampleRows (computeInterval
               (liveWindowRows db device now (rangeMapping "live")).length) ord).map
                 toHistPoint⟩ := by
      simp [getDeviceChartByRange]
    have hlen : (liveWindowRows db device now (rangeMapping "live")).length = ord.length :=
      hord.1.length_eq
    refine ⟨_, hchart, rfl, ?_, ?_, ?_, ?_⟩
    · show computeInterval (liveWindowRows db device now (rangeMapping "live")).length =
        max 1 ((liveWindowRows db device now (rangeMapping "live")).length / 100)
      rw [computeInterval, if_pos hpos]
    · show (sampleRows _ ord).map toHistPoint = (zeroIdxSample _ ord).map toHistPoint
      rw [sampleRows_eq_zeroIdx]
    · cases hOrd : ord with
      | nil =>
        rw [hOrd] at hlen
        simp at hlen
        rw [hlen] at hpos
        exact absurd hpos (by decide)
      | cons x xs =>
        show ((sampleRows _ (x :: xs)).map toHistPoint).head? =
          ((x :: xs).head?).map toHistPoint
        rw [List.head?_map, sampleRows_head]
        rfl
    · cases hOrd : ord with
      | nil =>
        rw [hOrd] at hlen
        simp at hlen
        rw [hlen] at hpos
        exact absurd hpos (by decide)
      | cons x xs => simp
  · intro ord hlen
    have h2 : computeInterval ord.length = 2 := by rw [hlen]; decide
    refine ⟨h2, ?_, ?_⟩
    · rw [h2, sampleRows_length, hlen]
      decide
    · cases ord with
      | nil => simp at hlen
      | cons x xs => rw [sampleRows_head]; rfl

/-- Witness for C2: a one-row window behaves as claimed, and a concrete
250-row order yields interval 2 and 125 points with the first row
kept. -/
theorem claim_C2_witness :
    (0 : Nat) < (fixedWindowRows db1 "d" 1736596800 (rangeMapping "7d")).length ∧
    (∃ p : ChartOk, getDeviceChartByRange db1 "d" "7d" 0 [r0] (some r0) = .ok p ∧
      p.total_records = (fixedWindowRows db1 "d" 1736596800 (rangeMapping "7d")).length ∧
      p.sampling_interval = max 1 (p.total_records / 100) ∧
      p.history = (zeroIdxSample p.sampling_interval [r0]).map toHistPoint ∧
      p.history.head? = ([r0] : List Reading).head?.map toHistPoint ∧
      ([r0] : List Reading).head? ≠ none) ∧
    (∃ p : ChartOk,
      getDeviceChartByRange db1 "d" "live" 1736596800 [r0] (some r0) = .ok p ∧
      p.total_records = (liveWindowRows db1 "d" 1736596800 (rangeMapping "live")).length ∧
      p.sampling_interval = max 1 (p.total_records / 100) ∧
      p.history = (zeroIdxSample p.sampling_interval [r0]).map toHistPoint ∧
      p.history.head? = ([r0] : List Reading).head?.map toHistPoint ∧
      ([r0] : List Reading).head? ≠ none) ∧
    (computeInterval ordBig250.length = 2 ∧
      (sampleRows (computeInterval ordBig250.length) ordBig250).length = 125 ∧
      (sampleRows 2 ordBig250).head? = ordBig250.head?) :=
  ⟨by decide,
   claim_C2_downsampling.1 db1 "d" "7d" 0 [r0] r0 1736596800 (by decide) (by decide)
     (by decide) (by decide),
   claim_C2_downsampling.2.1 db1 "d" 1736596800 [r0] r0 (by decide) (by decide),
   claim_C2_downsampling.2.2 ordBig250 (by simp [ordBig250])⟩

/-- Counterexample to claim C4 as stated: with two rows of one device
sharing a timestamp, both `[rA, rB]` and `[rB, rA]` are legal results of
the code's `ORDER BY timestamp ASC` (which imposes no `log_id`
tie-break), `[rB, rA]` violates the claimed ascending-`log_id` tie-break
order, the two legal orders produce different chart responses, and both
rows are legal `current` results — so the sampled series and the current
value are not deterministic functions of the stored rows. -/
theorem claim_C4_counterexample :
    validOrder (fixedWindowRows dbTie "d" 1736596800 (rangeMapping "1d")) [rA, rB] ∧
    validOrder (fixedWindowRows dbTie "d" 1736596800 (rangeMapping "1d")) [rB, rA] ∧
    sortedByTsLogId [rB, rA] = false ∧
    firstTs? dbTie "d" = some 1736596800 ∧
    getDeviceChartByRange dbTie "d" "1d" 0 [rB, rA] (some rA) ≠
      getDeviceChartByRange dbTie "d" "1d" 0 [rA, rB] (some rA) ∧
    validCurrent dbTie "d" (some rA) ∧ validCurrent dbTie "d" (some rB) ∧ rA ≠ rB := by
  refine ⟨by decide, by decide, by decide, by decide, by decide, ?_, ?_, by decide⟩
  · exact ⟨by decide, by decide⟩
  · exact ⟨by decide, by decide⟩

/-- Claim C4 as amended: the windowed query and the `current` query order
rows by timestamp alone, with no `log_id` tie-break; when the device's
stored timestamps are pairwise distinct the order, the current value and
hence the whole chart response are deterministic (any two legal database
orders coincide), while rows sharing a timestamp may be returned in
either order. -/
theorem claim_C4_order_determinism :
    (∀ rows o1 o2 : List Reading, distinctTs rows →
      validOrder rows o1 → validOrder rows o2 → o1 = o2) ∧
    (∀ (db : DB) (device : String) (c1 c2 : Reading), distinctTs (deviceRows db device) →
      validCurrent db device (some c1) → validCurrent db device (some c2) → c1 = c2) ∧
    (∀ (db : DB) (device range : String) (now : Int) (o1 o2 : List Reading)
       (c1 c2 : Reading) (first : Int), range ≠ "live" →
      firstTs? db device = some first → distinctTs (deviceRows db device) →
      validOrder (fixedWindowRows db device first (rangeMapping range)) o1 →
      validOrder (fixedWindowRows db device first (rangeMapping range)) o2 →
      validCurrent db device (some c1) → validCurrent db device (some c2) →
      getDeviceChartByRange db device range now o1 (some c1) =
        getDeviceChartByRange db device range now o2 (some c2)) := by
  refine ⟨fun rows o1 o2 hd h1 h2 => validOrder_unique rows o1 o2 hd h1 h2,
    fun db device c1 c2 hd h1 h2 => validCurrent_unique db device c1 c2 hd h1 h2, ?_⟩
  intro db device range now o1 o2 c1 c2 first hne hfirst hd ho1 ho2 hc1 hc2
  have hdw : distinctTs (fixedWindowRows db device first (rangeMapping range)) :=
    List.Pairwise.sublist (List.filter_sublist (deviceRows db device)) hd
  rw [validOrder_unique _ o1 o2 hdw ho1 ho2, validCurrent_unique db device c1 c2 hd hc1 hc2]

/-- Witness for the amended C4 on a device with two distinct-timestamp
rows. -/
theorem claim_C4_witness :
    distinctTs (deviceRows dbTwo "d") ∧
    ([s1, s2] : List Reading) = [s1, s2] ∧
    getDeviceChartByRange dbTwo "d" "1d" 0 [s1, s2] (some s2) =
      getDeviceChartByRange dbTwo "d" "1d" 0 [s1, s2] (some s2) := by
  have hd : distinctTs (deviceRows dbTwo "d") := by
    rw [distinctTs]
    decide
  refine ⟨hd, ?_, ?_⟩
  · exact claim_C4_order_determinism.1 (fixedWindowRows dbTwo "d" 1736596800
      (rangeMapping "1d")) [s1, s2] [s1, s2] (by rw [distinctTs]; decide) (by decide)
      (by decide)
  · exact claim_C4_order_determinism.2.2 dbTwo "d" "1d" 0 [s1, s2] [s1, s2] s2 s2 1736596800
      (by decide) (by decide) hd (by decide) (by decide) (by decide) (by decide)

end DHT
